import Mathlib

/-!
Verification of the VozaTexto client application.

The development shallowly embeds the data model (`types.ts`), the view
logic of `App.tsx` (SRT export, segment-time synchronization, history
persistence, upload handling, history clearing and selection), the
transcription client of `services/geminiService.ts`, and the audio
recorder component.  JavaScript floating-point seconds are modelled as
rationals; JavaScript strings as Lean strings; stateful React code as
explicit state-passing functions on an `AppState` record.
-/

namespace VozaTexto

/-- Recording status, from `types.ts`: `idle | recording | processing | error`. -/
inductive RecordingStatus where
  | idle
  | recording
  | processing
  | error
deriving DecidableEq, Repr

/-- `TranscriptionSegment` from `types.ts`: start/end offsets in seconds and text. -/
structure TranscriptionSegment where
  startTime : ℚ
  endTime : ℚ
  text : String
deriving DecidableEq, Repr

/-- `TranscriptionEntry` from `types.ts`.  `segments` and `audioUrl` are the
optional fields of the TypeScript interface. -/
structure TranscriptionEntry where
  id : String
  text : String
  segments : Option (List TranscriptionSegment)
  timestamp : ℕ
  duration : ℚ
  audioUrl : Option String
deriving DecidableEq, Repr

/-- JavaScript truncation toward zero, as applied by `TimeClip` when a
non-integral millisecond count is passed to the `Date` constructor. -/
def jsTrunc (q : ℚ) : ℤ :=
  if 0 ≤ q then ⌊q⌋ else ⌈q⌉

/-- `String.prototype.padStart(n, c)`: left-pad to length `n` with `c`. -/
def padStart (s : String) (n : ℕ) (c : Char) : String :=
  String.mk (List.replicate (n - s.length) c) ++ s

/-- `formatSRTTime` from `App.tsx` lines 96-103: builds the
`HH:MM:SS,mmm` timecode.  `hh` is `Math.floor(seconds / 3600)`; minutes,
seconds and milliseconds are the UTC components of
`new Date(seconds * 1000)`, i.e. floor-division and positive remainder on
the truncated millisecond count. -/
def formatSRTTime (seconds : ℚ) : String :=
  let t : ℤ := jsTrunc (seconds * 1000)
  let hh := padStart (toString ⌊seconds / 3600⌋) 2 '0'
  let mm := padStart (toString ((t.fdiv 60000).emod 60)) 2 '0'
  let ss := padStart (toString ((t.fdiv 1000).emod 60)) 2 '0'
  let ms := padStart (toString (t.emod 1000)) 3 '0'
  hh ++ ":" ++ mm ++ ":" ++ ss ++ "," ++ ms

/-- One SRT block of `exportToSRT` (`App.tsx` line 108): the callback of
`entry.segments.map((seg, i) => ...)` at index `i`. -/
def srtBlock (i : ℕ) (seg : TranscriptionSegment) : String :=
  toString (i + 1) ++ "\n" ++ formatSRTTime seg.startTime ++ " --> " ++
    formatSRTTime seg.endTime ++ "\n" ++ seg.text ++ "\n"

/-- The indexed map of `entry.segments.map((seg, i) => ...)`, carrying the
running index explicitly. -/
def srtBlocks (i : ℕ) : List TranscriptionSegment → List String
  | [] => []
  | seg :: rest => srtBlock i seg :: srtBlocks (i + 1) rest

/-- The SRT text built by `exportToSRT` (`App.tsx` lines 107-109): for each
segment a block `index\ntimecodes\ntext\n`, blocks joined with a newline. -/
def srtContent (segments : List TranscriptionSegment) : String :=
  String.intercalate ("\n") (srtBlocks 0 segments)

/-- `exportToSRT` from `App.tsx` lines 105-118, modelled as the file content
it produces: `none` when `entry.segments` is absent (the early `return`,
no file, no state change — the function touches no component state), and
`some` of the generated SRT text otherwise. -/
def exportToSRT (entry : TranscriptionEntry) : Option String :=
  match entry.segments with
  | none => none
  | some segs => some (srtContent segs)

/-- `isSegmentActive` from `App.tsx` lines 149-151:
`currentTime >= seg.startTime && currentTime <= seg.endTime`. -/
def isSegmentActive (currentTime : ℚ) (seg : TranscriptionSegment) : Bool :=
  decide (currentTime ≥ seg.startTime) && decide (currentTime ≤ seg.endTime)

/-- The sanitization `(e) => ({ ...e, audioUrl: undefined })` applied both
when persisting (`App.tsx` line 48) and when loading (line 23). -/
def stripAudioUrl (e : TranscriptionEntry) : TranscriptionEntry :=
  { e with audioUrl := none }

/-- What `localStorage.setItem` stores under `transcription_history`
(`App.tsx` line 48): each entry serialized with `audioUrl: undefined`.
JSON round-tripping of the remaining plain fields is the identity. -/
def persistHistory (history : List TranscriptionEntry) : List TranscriptionEntry :=
  history.map stripAudioUrl

/-- The load effect (`App.tsx` lines 17-29): parse the stored array and
clear any residual `audioUrl` from every entry. -/
def loadHistory (stored : List TranscriptionEntry) : List TranscriptionEntry :=
  stored.map stripAudioUrl

/-- The component state of `App` (`App.tsx` lines 8-12) together with the
persisted `transcription_history` key, modelled as the already-parsed
entry list (`none` when the key is absent). -/
structure AppState where
  history : List TranscriptionEntry
  status : RecordingStatus
  currentEntry : Option TranscriptionEntry
  error : Option String
  currentTime : ℚ
  storage : Option (List TranscriptionEntry)
deriving DecidableEq, Repr

/-- The parsed transcription response `{ text, segments }` returned by the
service (`services/geminiService.ts` lines 48-51). -/
structure TranscriptionResult where
  text : String
  segments : List TranscriptionSegment
deriving DecidableEq, Repr

/-- `transcribeAudio` from `services/geminiService.ts`: on a valid
schema-conforming response it returns the parsed `{ text, segments }`;
any service or parse failure is rethrown to the caller (`none` models a
network error or schema/parse violation). -/
def transcribeAudio (response : Option TranscriptionResult) :
    Except Unit TranscriptionResult :=
  match response with
  | some r => Except.ok r
  | none => Except.error ()

/-- The fixed user-facing failure message set by `processTranscription`
(`App.tsx` line 52). -/
def transcriptionErrorMessage : String :=
  "Error al procesar la transcripción profesional. Inténtalo de nuevo."

/-- The upload rejection message of `handleFileChange` (`App.tsx` line 82). -/
def uploadErrorMessage : String :=
  "Selecciona un archivo de audio."

/-- The entry text built at `App.tsx` line 39:
`fileName ? `[Archivo: fileName]\n` + text : text`. -/
def mkEntryText (fileName : Option String) (text : String) : String :=
  match fileName with
  | some name => "[Archivo: " ++ name ++ "]\n" ++ text
  | none => text

/-- `processTranscription` from `App.tsx` lines 31-55 as a state
transformer.  `now` stands for `Date.now()`; `response` is the outcome of
the awaited `transcribeAudio` call.  On success the new entry is
prepended to the history, the sanitized history is persisted, the entry
becomes current and status returns to `idle`; on failure the fixed error
message is set and status becomes `error`. -/
def processTranscription (s : AppState) (now : ℕ) (duration : ℚ)
    (audioUrl : String) (fileName : Option String)
    (response : Option TranscriptionResult) : AppState :=
  let s1 : AppState := { s with error := none, status := RecordingStatus.processing }
  match transcribeAudio response with
  | Except.ok result =>
    let newEntry : TranscriptionEntry :=
      { id := toString now
        text := mkEntryText fileName result.text
        segments := some result.segments
        timestamp := now
        duration := duration
        audioUrl := some audioUrl }
    let updatedHistory := newEntry :: s1.history
    { s1 with
      history := updatedHistory
      storage := some (persistHistory updatedHistory)
      currentEntry := some newEntry
      status := RecordingStatus.idle }
  | Except.error _ =>
    { s1 with
      error := some transcriptionErrorMessage
      status := RecordingStatus.error }

/-- A file picked in the upload input: its `name` and MIME `type`. -/
structure UploadFile where
  name : String
  type : String
deriving DecidableEq, Repr

/-- JavaScript `String.prototype.startsWith`: the search string is a
prefix of the receiver, modelled on the character lists. -/
def jsStartsWith (s pre : String) : Bool :=
  pre.data.isPrefixOf s.data

/-- `handleFileChange` from `App.tsx` lines 78-94.  Returns the updated
state and, when the file passes the audio check, the file handed to the
reader whose `onload` invokes `processTranscription` (so `none` in the
second component means the transcription client is never invoked). -/
def handleFileChange (s : AppState) (file : Option UploadFile) :
    AppState × Option UploadFile :=
  match file with
  | none => (s, none)
  | some f =>
    if ¬ jsStartsWith f.type ("audio/") then
      ({ s with error := some uploadErrorMessage }, none)
    else
      (s, some f)

/-- `clearHistory` from `App.tsx` lines 135-141: when the user confirms,
empty the in-memory history, remove the persisted key and deselect the
current entry. -/
def clearHistory (s : AppState) (confirmed : Bool) : AppState :=
  if confirmed then
    { s with history := [], storage := none, currentEntry := none }
  else s

/-- The history-entry `onClick` handler (`App.tsx` lines 311-314):
`if (currentEntry?.id !== entry.id) setCurrentEntry(entry)`. -/
def handleSelectEntry (s : AppState) (entry : TranscriptionEntry) : AppState :=
  if s.currentEntry.map (fun e => e.id) ≠ some entry.id then
    { s with currentEntry := some entry }
  else s

/-- The state of the `AudioRecorder` component.  `recordingTime` is the
`useState` counter; `onstopCaptured` is the value of `recordingTime`
captured by the closure installed as `mediaRecorder.onstop` when
`startRecording` ran (the closure never sees later state updates);
`timerActive` tracks the `setInterval` timer. -/
structure RecorderState where
  recordingTime : ℕ
  status : RecordingStatus
  onstopCaptured : ℕ
  timerActive : Bool
deriving DecidableEq, Repr

/-- The component's initial state: counter 0, idle, no timer. -/
def initialRecorder : RecorderState :=
  { recordingTime := 0, status := RecordingStatus.idle,
    onstopCaptured := 0, timerActive := false }

/-- `startRecording` (src/unnamed/part_000 lines 23-59) in the successful
branch: installs `onstop`, whose closure captures the `recordingTime`
binding of the render in which `startRecording` was created, sets status
to recording, resets the counter and starts the one-second timer. -/
def startRecording (s : RecorderState) : RecorderState :=
  { s with
    onstopCaptured := s.recordingTime
    status := RecordingStatus.recording
    recordingTime := 0
    timerActive := true }

/-- One firing of the `setInterval` callback (lines 51-53):
`setRecordingTime(prev => prev + 1)`. -/
def timerTick (s : RecorderState) : RecorderState :=
  if s.timerActive then { s with recordingTime := s.recordingTime + 1 } else s

/-- `stopRecording` (lines 61-67) followed by the `onstop` handler (lines
36-45): when recording, the timer is cleared, status moves to processing,
and `onRecordingComplete` receives the duration — the `recordingTime`
value the `onstop` closure captured.  The second component is the
duration delivered to the callback (`none` when no recording was in
progress and the callback is not invoked). -/
def stopRecording (s : RecorderState) : RecorderState × Option ℕ :=
  if s.status = RecordingStatus.recording then
    ({ s with timerActive := false, status := RecordingStatus.processing },
      some s.onstopCaptured)
  else (s, none)

/-- A concrete entry carrying a playback handle, used in concrete
instantiations. -/
def entryWithUrl : TranscriptionEntry :=
  { id := "1700000000000", text := "Hola mundo",
    segments := some [⟨0, 2, "Hola"⟩, ⟨2, 3, "mundo"⟩],
    timestamp := 1700000000000, duration := 3, audioUrl := some ("blob:demo") }

/-- A concrete app state displaying `entryWithUrl`, used in concrete
instantiations. -/
def stateShowingEntry : AppState :=
  { history := [entryWithUrl], status := RecordingStatus.idle,
    currentEntry := some entryWithUrl, error := none,
    currentTime := 1, storage := some [stripAudioUrl entryWithUrl] }

/-- A segment list whose two segments have overlapping closed intervals. -/
def overlappingSegments : List TranscriptionSegment :=
  [⟨0, 4, "a"⟩, ⟨1, 3, "b"⟩]

/-- Sanitizing an already-sanitized entry changes nothing. -/
theorem stripAudioUrl_idem (e : TranscriptionEntry) :
    stripAudioUrl (stripAudioUrl e) = stripAudioUrl e := rfl

/-- `formatSRTTime` at 0 seconds. -/
theorem formatSRTTime_zero : formatSRTTime 0 = ("00:00:00,000") := by
  have h1 : jsTrunc ((0 : ℚ) * 1000) = 0 := by unfold jsTrunc; norm_num
  have h2 : (⌊(0 : ℚ) / 3600⌋ : ℤ) = 0 := by norm_num
  simp only [formatSRTTime, h1, h2]
  rfl

/-- `formatSRTTime` at 1.5 seconds. -/
theorem formatSRTTime_three_halves : formatSRTTime (3 / 2) = ("00:00:01,500") := by
  have h1 : jsTrunc ((3 / 2 : ℚ) * 1000) = 1500 := by unfold jsTrunc; norm_num
  have h2 : (⌊(3 / 2 : ℚ) / 3600⌋ : ℤ) = 0 := by norm_num
  simp only [formatSRTTime, h1, h2]
  rfl

/-- `formatSRTTime` at 3 seconds. -/
theorem formatSRTTime_three : formatSRTTime 3 = ("00:00:03,000") := by
  have h1 : jsTrunc ((3 : ℚ) * 1000) = 3000 := by unfold jsTrunc; norm_num
  have h2 : (⌊(3 : ℚ) / 3600⌋ : ℤ) = 0 := by norm_num
  simp only [formatSRTTime, h1, h2]
  rfl

/-- C1: on the segment list `[{0, 1.5, "Hola"}, {1.5, 3, "mundo"}]`,
`exportToSRT` produces exactly the expected SRT text: per segment a
1-based index line, a zero-padded `HH:MM:SS,mmm --> HH:MM:SS,mmm` line
and the segment text, with blocks separated by a blank line. -/
theorem c1_exportToSRT_example :
    exportToSRT
      { id := "e1", text := "Hola mundo",
        segments := some [⟨0, 3 / 2, "Hola"⟩, ⟨3 / 2, 3, "mundo"⟩],
        timestamp := 0, duration := 3, audioUrl := none } =
    some ("1\n00:00:00,000 --> 00:00:01,500\nHola\n\n2\n00:00:01,500 --> 00:00:03,000\nmundo\n") := by
  simp only [exportToSRT, srtContent, srtBlocks, srtBlock,
    formatSRTTime_zero, formatSRTTime_three_halves, formatSRTTime_three]
  rfl

/-- C2: for every playback time and segment, `isSegmentActive` holds
exactly on the closed interval `startTime ≤ t ≤ endTime`; hence a
segment with equal endpoints is active at exactly that one instant. -/
theorem c2_isSegmentActive_closed_interval (t : ℚ) (seg : TranscriptionSegment) :
    (isSegmentActive t seg = true ↔ seg.startTime ≤ t ∧ t ≤ seg.endTime) ∧
    (seg.startTime = seg.endTime → (isSegmentActive t seg = true ↔ t = seg.startTime)) := by
  constructor
  · simp [isSegmentActive, ge_iff_le]
  · intro h
    simp only [isSegmentActive, ge_iff_le, Bool.and_eq_true, decide_eq_true_eq]
    rw [← h]
    constructor
    · rintro ⟨h1, h2⟩
      exact le_antisymm h2 h1
    · rintro rfl
      exact ⟨le_refl _, le_refl _⟩

/-- Witness for C2 at the degenerate segment `{2, 2, "x"}` and `t = 2`. -/
theorem c2_witness :
    isSegmentActive 2 ⟨2, 2, "x"⟩ = true ↔ (2 : ℚ) = 2 :=
  (c2_isSegmentActive_closed_interval 2 ⟨2, 2, "x"⟩).2 rfl

/-- C3: persisting a history and loading it back yields the same entries
in the same order with the playback handle absent; loading strips any
residual handle from every stored entry. -/
theorem c3_history_round_trip (history stored : List TranscriptionEntry) :
    loadHistory (persistHistory history) = history.map stripAudioUrl ∧
    (∀ e ∈ loadHistory stored, e.audioUrl = none) := by
  constructor
  · rw [loadHistory, persistHistory, List.map_map]
    have h : stripAudioUrl ∘ stripAudioUrl = stripAudioUrl := funext fun e => rfl
    rw [h]
  · intro e he
    rw [loadHistory] at he
    obtain ⟨a, _, rfl⟩ := List.mem_map.mp he
    rfl

/-- Witness for C3 on a one-entry history carrying a playback handle. -/
theorem c3_witness :
    loadHistory (persistHistory [entryWithUrl]) = [entryWithUrl].map stripAudioUrl ∧
    (stripAudioUrl entryWithUrl).audioUrl = none := by
  refine ⟨(c3_history_round_trip [entryWithUrl] []).1, ?_⟩
  exact (c3_history_round_trip [] [entryWithUrl]).2 (stripAudioUrl entryWithUrl)
    (by simp [loadHistory])

/-- C4: after starting a recording and three one-second timer ticks, the
counter shows 3, yet the completion callback receives duration 0 — the
`onstop` closure delivers the stale `recordingTime` captured when
`startRecording` ran, not the counter value at the moment recording
stopped. -/
theorem c4_stale_closure_duration :
    (stopRecording (timerTick (timerTick (timerTick (startRecording initialRecorder))))).2 =
      some 0 ∧
    (timerTick (timerTick (timerTick (startRecording initialRecorder)))).recordingTime = 3 := by
  decide

/-- C5: when the transcription attempt fails, the status becomes `error`,
the fixed user-facing message is set, and the history, its persisted
copy and the current entry are all unchanged. -/
theorem c5_transcription_failure (s : AppState) (now : ℕ) (duration : ℚ)
    (audioUrl : String) (fileName : Option String) :
    (processTranscription s now duration audioUrl fileName none).status =
      RecordingStatus.error ∧
    (processTranscription s now duration audioUrl fileName none).error =
      some transcriptionErrorMessage ∧
    (processTranscription s now duration audioUrl fileName none).history = s.history ∧
    (processTranscription s now duration audioUrl fileName none).storage = s.storage ∧
    (processTranscription s now duration audioUrl fileName none).currentEntry =
      s.currentEntry :=
  ⟨rfl, rfl, rfl, rfl, rfl⟩

/-- C6: uploading a file whose MIME type is not an audio type never hands
the file to the transcription pipeline, sets the rejection message, and
leaves status, history, current entry and storage unchanged. -/
theorem c6_non_audio_upload (s : AppState) (f : UploadFile)
    (h : jsStartsWith f.type ("audio/") = false) :
    handleFileChange s (some f) = ({ s with error := some uploadErrorMessage }, none) ∧
    (handleFileChange s (some f)).1.status = s.status ∧
    (handleFileChange s (some f)).1.history = s.history ∧
    (handleFileChange s (some f)).1.currentEntry = s.currentEntry ∧
    (handleFileChange s (some f)).1.storage = s.storage := by
  simp [handleFileChange, h]

/-- Witness for C6 on a `text/plain` upload. -/
theorem c6_witness :
    handleFileChange stateShowingEntry (some ⟨"notas.txt", "text/plain"⟩) =
      ({ stateShowingEntry with error := some uploadErrorMessage }, none) ∧
    (handleFileChange stateShowingEntry (some ⟨"notas.txt", "text/plain"⟩)).1.status =
      stateShowingEntry.status ∧
    (handleFileChange stateShowingEntry (some ⟨"notas.txt", "text/plain"⟩)).1.history =
      stateShowingEntry.history ∧
    (handleFileChange stateShowingEntry (some ⟨"notas.txt", "text/plain"⟩)).1.currentEntry =
      stateShowingEntry.currentEntry ∧
    (handleFileChange stateShowingEntry (some ⟨"notas.txt", "text/plain"⟩)).1.storage =
      stateShowingEntry.storage :=
  c6_non_audio_upload stateShowingEntry ⟨"notas.txt", "text/plain"⟩ rfl

/-- C7: the confirmed clear-all action empties the in-memory history,
removes the persisted key and deselects the current entry, whatever the
prior state. -/
theorem c7_clearHistory (s : AppState) (confirmed : Bool) (h : confirmed = true) :
    (clearHistory s confirmed).history = [] ∧
    (clearHistory s confirmed).storage = none ∧
    (clearHistory s confirmed).currentEntry = none := by
  subst h
  exact ⟨rfl, rfl, rfl⟩

/-- Witness for C7 on a non-empty state. -/
theorem c7_witness :
    (clearHistory stateShowingEntry true).history = [] ∧
    (clearHistory stateShowingEntry true).storage = none ∧
    (clearHistory stateShowingEntry true).currentEntry = none :=
  c7_clearHistory stateShowingEntry true rfl

/-- C8: clicking the history entry that is already displayed changes
nothing — the whole state, in particular the displayed entry and the
current playback time, is returned unchanged. -/
theorem c8_reselect_noop (s : AppState) (e : TranscriptionEntry)
    (h : s.currentEntry = some e) :
    handleSelectEntry s e = s := by
  simp [handleSelectEntry, h]

/-- Witness for C8: re-selecting the displayed entry of a concrete state. -/
theorem c8_witness :
    handleSelectEntry stateShowingEntry entryWithUrl = stateShowingEntry :=
  c8_reselect_noop stateShowingEntry entryWithUrl rfl

/-- C9: the active-segment test is a per-segment predicate with no
uniqueness enforcement: the list `overlappingSegments` holds two distinct
segments with overlapping closed intervals, and at playback time 2 both
are reported active. -/
theorem c9_overlap_both_active :
    (⟨0, 4, "a"⟩ : TranscriptionSegment) ∈ overlappingSegments ∧
    (⟨1, 3, "b"⟩ : TranscriptionSegment) ∈ overlappingSegments ∧
    (⟨0, 4, "a"⟩ : TranscriptionSegment) ≠ ⟨1, 3, "b"⟩ ∧
    isSegmentActive 2 ⟨0, 4, "a"⟩ = true ∧
    isSegmentActive 2 ⟨1, 3, "b"⟩ = true := by
  decide

/-- C10: exporting an entry whose `segments` field is absent produces no
file: the function returns immediately with no output (and, being pure
state-free view code, changes no state). -/
theorem c10_export_without_segments (e : TranscriptionEntry) (h : e.segments = none) :
    exportToSRT e = none := by
  simp [exportToSRT, h]

/-- Witness for C10 on a segment-free entry. -/
theorem c10_witness :
    exportToSRT
      { id := "2", text := "sin segmentos", segments := none,
        timestamp := 0, duration := 0, audioUrl := none } = none :=
  c10_export_without_segments
    { id := "2", text := "sin segmentos", segments := none,
      timestamp := 0, duration := 0, audioUrl := none } rfl

end VozaTexto
